import Mathlib

set_option maxRecDepth 16384

/-!
Shallow embedding of the reliability core of the `bluesky-mcp` gateway
(`pkg/apiclient/client.go`, `internal/auth/auth.go`,
`internal/handlers/mcp_handlers.go`, `internal/models/models.go`,
`internal/services/post/assist.go`), together with theorems settling the
stated behavioural properties of those components.

Conventions of the embedding:
* machine integers and `time.Time` / `time.Duration` values are modelled as
  `Int` (instants on an abstract clock) or `Nat` (counters); durations and
  instants share one unit, so `now.Sub(t) > d` becomes `now - t > d`;
* Go byte slices are `List Nat`;
* Go `error` values carry their message string; the apiclient additionally
  distinguishes whether the `err.(net.Error)` type assertion succeeds;
* the HTTP transport is an oracle: a call site receives the list of outcomes
  that successive upstream attempts would produce, so the retry loop's
  elapsed-time budget is embodied by the length of that list;
* Go maps with the `missing key = empty/nil` reading are total functions.
-/

/-- Prefix test on character lists: `leadsList pre l` holds when `pre` is a
prefix of `l` (mirrors Go `strings.HasPrefix` after `String.toList`). -/
def leadsList : List Char → List Char → Bool
  | [], _ => true
  | _ :: _, [] => false
  | a :: as, b :: bs => a == b && leadsList as bs

/-- Substring occurrence starting at any position of the haystack. -/
def subListFrom (needle : List Char) : List Char → Bool
  | [] => leadsList needle []
  | c :: rest => leadsList needle (c :: rest) || subListFrom needle rest

/-- Go `strings.Contains s sub`. -/
def strContains (s sub : String) : Bool := subListFrom sub.toList s.toList

/-- Go `strings.HasPrefix s pre`. -/
def hasStrPre (s pre : String) : Bool := leadsList pre.toList s.toList

namespace ApiClient

/-- Go `error` value as seen by `pkg/apiclient`: `isNetError` records whether
the `err.(net.Error)` type assertion succeeds, in which case `temporary` and
`timeout` are the results of the corresponding methods; `message` is
`err.Error()`. -/
structure GoError where
  isNetError : Bool
  temporary : Bool
  timeout : Bool
  message : String
deriving DecidableEq, Repr

/-- `CircuitBreakerConfig` from `pkg/apiclient/client.go`. -/
structure CircuitBreakerConfig where
  FailureThreshold : Nat
  ResetTimeout : Int
  SuccessThreshold : Nat
  LastFailureResetMs : Int
deriving Repr

/-- Mutable state of a `BlueskyClient` relevant to retries and the circuit
breaker: the failure counter, breaker flag and instant, the breaker
configuration, and the fallback-response registry (`nil`-keyed misses read as
`none`). -/
structure BlueskyClient where
  CircuitBreaker : CircuitBreakerConfig
  currentFailures : Nat
  isCircuitOpen : Bool
  circuitLastChecked : Int
  FallbackResponses : String → Option (List Nat)

/-- `isRetryableError` from `pkg/apiclient/client.go`: a `net.Error` is
retryable when temporary or timeout; otherwise the error message is searched
for the six substrings below.  Note the list has no "EOF" and no
"i/o timeout" entry (unlike the classifier in `internal/auth/auth.go`). -/
def isRetryableError (err : GoError) : Bool :=
  if err.isNetError then err.temporary || err.timeout
  else
    strContains err.message "status 500" ||
    strContains err.message "status 502" ||
    strContains err.message "status 503" ||
    strContains err.message "status 504" ||
    strContains err.message "connection refused" ||
    strContains err.message "no such host"

/-- `isCircuitBreakerOpen`: while open, once strictly more than
`ResetTimeout` has elapsed since `circuitLastChecked` the breaker moves to
half-open (flag cleared, failure counter zeroed) and the call is let
through. -/
def isCircuitBreakerOpen (c : BlueskyClient) (now : Int) : Bool × BlueskyClient :=
  if c.isCircuitOpen then
    if now - c.circuitLastChecked > c.CircuitBreaker.ResetTimeout then
      (false, { c with isCircuitOpen := false, currentFailures := 0 })
    else
      (true, c)
  else
    (false, c)

/-- `recordFailure`: increment the consecutive-failure counter and open the
breaker (recording the instant) when the threshold is reached. -/
def recordFailure (c : BlueskyClient) (now : Int) : BlueskyClient :=
  if c.CircuitBreaker.FailureThreshold ≤ c.currentFailures + 1 then
    { c with currentFailures := c.currentFailures + 1,
             isCircuitOpen := true,
             circuitLastChecked := now }
  else
    { c with currentFailures := c.currentFailures + 1 }

/-- `recordSuccess`: reset the failure counter and close the breaker. -/
def recordSuccess (c : BlueskyClient) : BlueskyClient :=
  { c with currentFailures := 0, isCircuitOpen := false }

/-- Outcome of one upstream attempt (`executeRequest`): a response body or an
error. -/
inductive Attempt where
  | ok (body : List Nat)
  | fail (e : GoError)
deriving DecidableEq, Repr

/-- Error surfaced by `Get`/`Post`: either `ErrCircuitOpen` or the final
upstream error. -/
inductive ClientError where
  | circuitOpen
  | upstream (e : GoError)
deriving DecidableEq, Repr

/-- The `backoff.Retry` loop inside `executeRequestWithRetries`.  `first` is
the outcome (with its instant) of the attempt the loop makes now; `rest` are
the outcomes further attempts would produce before the elapsed-time budget
runs out.  Success records a success and stops; a failure is recorded, then a
retryable error consumes the next attempt (or surfaces once the budget is
exhausted) while a non-retryable error is `backoff.Permanent` and surfaces at
once. -/
def backoffRetry (c : BlueskyClient) (first : Int × Attempt)
    (rest : List (Int × Attempt)) : Except GoError (List Nat) × BlueskyClient :=
  match first.2 with
  | .ok body => (.ok body, recordSuccess c)
  | .fail e =>
    let c' := recordFailure c first.1
    if isRetryableError e then
      match rest with
      | [] => (.error e, c')
      | a :: more => backoffRetry c' a more
    else
      (.error e, c')

/-- `executeRequestWithRetries` (the shared core of `Get` and `Post`): when
the breaker is open the registered fallback is returned, else
`ErrCircuitOpen`; otherwise the retry loop runs, and a final error is
replaced by the registered fallback when one exists. -/
def executeRequestWithRetries (c : BlueskyClient) (endpoint : String)
    (now : Int) (first : Int × Attempt) (rest : List (Int × Attempt)) :
    Except ClientError (List Nat) × BlueskyClient :=
  match isCircuitBreakerOpen c now with
  | (true, c₁) =>
    match c₁.FallbackResponses endpoint with
    | some fb => (.ok fb, c₁)
    | none => (.error .circuitOpen, c₁)
  | (false, c₁) =>
    match backoffRetry c₁ first rest with
    | (.ok body, c₂) => (.ok body, c₂)
    | (.error e, c₂) =>
      match c₂.FallbackResponses endpoint with
      | some fb => (.ok fb, c₂)
      | none => (.error (.upstream e), c₂)

/-- Folding `recordFailure` over a list of failure instants. -/
def applyFailures (c : BlueskyClient) (ts : List Int) : BlueskyClient :=
  ts.foldl recordFailure c

end ApiClient

/-- Retryability as the specification words it for the apiclient: transport
errors reporting temporary or timeout, status 500/502/503/504, or a message
containing "connection refused", "no such host", "EOF" or "i/o timeout".
This definition follows the spec sentence, to be compared with
`ApiClient.isRetryableError` from the source. -/
def retryableBySpec (err : ApiClient.GoError) : Bool :=
  (err.isNetError && (err.temporary || err.timeout)) ||
  strContains err.message "status 500" ||
  strContains err.message "status 502" ||
  strContains err.message "status 503" ||
  strContains err.message "status 504" ||
  strContains err.message "connection refused" ||
  strContains err.message "no such host" ||
  strContains err.message "EOF" ||
  strContains err.message "i/o timeout"

namespace Auth

open ApiClient (GoError)

/-- `config.Config` as used by `internal/auth/auth.go`. -/
structure Config where
  BskyID : String
  BskyPassword : String
  BskyHost : String
deriving DecidableEq, Repr

/-- `Session` from `internal/auth/auth.go`; `ExpiresAt` is the locally
recorded expiration instant. -/
structure Session where
  AccessJWT : String
  RefreshJWT : String
  Handle : String
  DID : String
  ExpiresAt : Int
deriving DecidableEq, Repr

/-- `BackupCredentials` from `internal/auth/auth.go`. -/
structure BackupCredentials where
  BskyID : String
  BskyPassword : String
  BskyHost : String
deriving DecidableEq, Repr

/-- `isValidJWT`: coarse JWT shape check (`strings.HasPrefix(token, "eyJ")`
and Go `len(token) >= 100`, which counts UTF-8 bytes). -/
def isValidJWT (token : String) : Bool :=
  hasStrPre token "eyJ" && decide (100 ≤ token.utf8ByteSize)

/-- `getValidTokenUnlocked`: the stored access credential is returned iff it
is non-empty, the current instant is before `ExpiresAt`, and `isValidJWT`
accepts it.  (The background-refresh scheduling this function may also
trigger mutates no state read here and does not affect the returned value.) -/
def getValidTokenUnlocked (s : Session) (now : Int) : Option String :=
  if s.AccessJWT = "" then none
  else if now < s.ExpiresAt then
    if isValidJWT s.AccessJWT then some s.AccessJWT else none
  else none

/-- Config a backup credential is tried under: its own host, or the primary
config's host when the backup records none
(`createSessionWithRetries`, backup loop). -/
def backupToConfig (mainHost : String) (b : BackupCredentials) : Config :=
  { BskyID := b.BskyID
    BskyPassword := b.BskyPassword
    BskyHost := if b.BskyHost = "" then mainHost else b.BskyHost }

/-- Backup loop of `createSessionWithRetries`.  `attempt cfg` is the outcome
of `tm.retryOperation` around `createSessionUnlocked cfg` (one full retried
session-create against `cfg`); `primaryErr` is the error of the primary
attempt, which the Go code returns unchanged when every backup also fails
(each backup's own error is discarded). -/
def tryBackups (attempt : Config → Except GoError String) (mainCfg : Config)
    (primaryErr : GoError) : List BackupCredentials → Except GoError String
  | [] => .error primaryErr
  | b :: rest =>
    match attempt (backupToConfig mainCfg.BskyHost b) with
    | .ok tok => .ok tok
    | .error _ => tryBackups attempt mainCfg primaryErr rest

/-- `createSessionWithRetries`: retried create with the primary credentials,
then the registered backup credentials in order; the first success wins and
when everything fails the primary attempt's error is returned. -/
def createSessionWithRetries (attempt : Config → Except GoError String)
    (backups : List BackupCredentials) (cfg : Config) : Except GoError String :=
  match attempt cfg with
  | .ok tok => .ok tok
  | .error e => tryBackups attempt cfg e backups

/-- `TokenManager.GetToken`: return the stored credential while valid;
otherwise, if a refresh credential exists, try a retried refresh
(`refreshAttempt` is its outcome, the parsed new session on success) and on
refresh failure — or with no refresh credential — fall through to
`createSessionWithRetries`. -/
def GetToken (s : Session) (now : Int) (refreshAttempt : Except GoError Session)
    (createAttempt : Config → Except GoError String)
    (backups : List BackupCredentials) (cfg : Config) : Except GoError String :=
  match getValidTokenUnlocked s now with
  | some tok => .ok tok
  | none =>
    if s.RefreshJWT ≠ "" then
      match refreshAttempt with
      | .ok s' => .ok s'.AccessJWT
      | .error _ => createSessionWithRetries createAttempt backups cfg
    else
      createSessionWithRetries createAttempt backups cfg

/-- `isRetryableError` from `internal/auth/auth.go` (distinct from the
apiclient classifier: it also matches "request failed", "i/o timeout" and
"EOF"). -/
def isRetryableError (err : GoError) : Bool :=
  strContains err.message "request failed" ||
  strContains err.message "connection refused" ||
  strContains err.message "no such host" ||
  strContains err.message "i/o timeout" ||
  strContains err.message "status 500" ||
  strContains err.message "status 502" ||
  strContains err.message "status 503" ||
  strContains err.message "status 504" ||
  strContains err.message "EOF"

end Auth

namespace Models

/-- Error-code constants from `internal/models/models.go`. -/
def ErrInvalidRequest : String := "invalid_request"

def ErrInvalidParams : String := "invalid_params"

def ErrAuthenticationError : String := "authentication_error"

def ErrAPIError : String := "api_error"

def ErrNotFound : String := "not_found"

def ErrInternalError : String := "internal_error"

def ErrServiceUnavailable : String := "service_unavailable"

def ErrTimeout : String := "timeout"

def ErrRateLimited : String := "rate_limited"

/-- `ErrorInfo`; `Details` has `omitempty`, modelled as an option. -/
structure ErrorInfo where
  Code : String
  Message : String
  Details : Option String
deriving DecidableEq, Repr

/-- `JSONRPCRequest` envelope.  The dynamically typed `Params` map is not
modelled: handler dispatch is abstracted by an outcome oracle in
`Handlers.HandleMCPRequest`. -/
structure JSONRPCRequest where
  JSONRPC : String
  Method : String
  ID : Int
deriving DecidableEq, Repr

/-- `JSONRPCResponse`; `Result` and `Error` both have `omitempty`, modelled
as options (the handler result payload is abstracted to a string). -/
structure JSONRPCResponse where
  JSONRPC : String
  Result : Option String
  Error : Option ErrorInfo
  ID : Int
deriving DecidableEq, Repr

/-- `NewErrorResponse`. -/
def NewErrorResponse (id : Int) (code message : String) : JSONRPCResponse :=
  { JSONRPC := "2.0"
    Result := none
    Error := some { Code := code, Message := message, Details := none }
    ID := id }

/-- `NewDetailedErrorResponse`. -/
def NewDetailedErrorResponse (id : Int) (code message details : String) :
    JSONRPCResponse :=
  { JSONRPC := "2.0"
    Result := none
    Error := some { Code := code, Message := message, Details := some details }
    ID := id }

end Models

namespace Handlers

/-- `RateLimiter` from `internal/handlers/mcp_handlers.go`.  The Go map of
per-key admission instants is a total function (a deleted or missing key
reads as the empty list, exactly as the Go code treats it). -/
structure RateLimiter where
  requests : String → List Int
  windowSize : Int
  maxRequests : Nat
  cleanupPeriod : Int
  lastCleanup : Int

/-- `cleanup`: drop, for every key, the instants outside the current window
(`t.After(cutoff)` keeps `cutoff < t` with `cutoff = now - windowSize`);
deleting a key whose list became empty is observationally the empty list. -/
def cleanup (rl : RateLimiter) (now : Int) : RateLimiter :=
  { rl with
    requests := fun ip =>
      (rl.requests ip).filter (fun t => decide (now - rl.windowSize < t)) }

/-- Periodic-cleanup step at the top of `Allow`: sweep the whole map when
more than `cleanupPeriod` has passed since the last sweep. -/
def cleanupDue (rl : RateLimiter) (now : Int) : RateLimiter :=
  if now - rl.lastCleanup > rl.cleanupPeriod then
    { cleanup rl now with lastCleanup := now }
  else rl

/-- Store `v` as the list of key `ip` (`rl.requests[ip] = validTimes`). -/
def updReq (rl : RateLimiter) (ip : String) (v : List Int) : RateLimiter :=
  { rl with requests := fun k => if k = ip then v else rl.requests k }

/-- Admission decision of `Allow` after the periodic cleanup: truncate the
key's list to the window, reject (without storing anything) when the
remaining count has reached `maxRequests`, else append `now` and admit. -/
def allowCore (rl : RateLimiter) (ip : String) (now : Int) :
    Bool × RateLimiter :=
  if rl.maxRequests ≤
      ((rl.requests ip).filter (fun t => decide (now - rl.windowSize < t))).length
  then
    (false, rl)
  else
    (true, updReq rl ip
      (((rl.requests ip).filter
        (fun t => decide (now - rl.windowSize < t))) ++ [now]))

/-- `RateLimiter.Allow`. -/
def Allow (rl₀ : RateLimiter) (ip : String) (now : Int) : Bool × RateLimiter :=
  allowCore (cleanupDue rl₀ now) ip now

/-- The package-level `rateLimiter` value: 60 requests per one-minute window,
five-minute cleanup period (instants in nanoseconds), constructed at
`startTime`. -/
def rateLimiterInit (startTime : Int) : RateLimiter :=
  { requests := fun _ => []
    windowSize := 60000000000
    maxRequests := 60
    cleanupPeriod := 300000000000
    lastCleanup := startTime }

/-- A sequence of `Allow` calls, as the gateway performs per request: returns
the final limiter state and the (key, instant) pairs of the admitted calls in
order. -/
def runLimiter (rl : RateLimiter) :
    List (String × Int) → RateLimiter × List (String × Int)
  | [] => (rl, [])
  | (ip, t) :: rest =>
    match Allow rl ip t with
    | (admitted, rl') =>
      match runLimiter rl' rest with
      | (rlF, adm) => (rlF, (cond admitted [(ip, t)] []) ++ adm)

/-- `ValidMethods` whitelist. -/
def ValidMethods (method : String) : Bool :=
  method = "feed-analysis" || method = "post-assist" ||
  method = "post-submit" || method = "community-manage"

/-- `respondWithError`: statuses ≥ 500 get the detailed error format (with an
operator-facing details string built from the current timestamp `ts`). -/
def respondWithError (httpStatus : Nat) (errorCode message : String)
    (id : Int) (ts : String) : Nat × Models.JSONRPCResponse :=
  if 500 ≤ httpStatus then
    (httpStatus, Models.NewDetailedErrorResponse id errorCode message
      ("Error occurred at " ++ ts ++ ", please try again later"))
  else
    (httpStatus, Models.NewErrorResponse id errorCode message)

/-- `handleMethodError`: substring classification of a handler error into the
error taxonomy. -/
def handleMethodError (errString : String) (requestID : Int) (ts : String) :
    Nat × Models.JSONRPCResponse :=
  if strContains errString "timeout" then
    respondWithError 504 Models.ErrTimeout "Request timed out" requestID ts
  else if strContains errString "authentication" then
    respondWithError 401 Models.ErrAuthenticationError "Authentication failed"
      requestID ts
  else if strContains errString "not found" || strContains errString "404" then
    respondWithError 404 Models.ErrNotFound "Resource not found" requestID ts
  else if strContains errString "invalid" || strContains errString "parameter"
      || strContains errString "validation" then
    respondWithError 400 Models.ErrInvalidParams "Invalid parameters"
      requestID ts
  else if strContains errString "server" || strContains errString "API error"
      || strContains errString "status 5"
      || strContains errString "failed to create post" then
    respondWithError 502 Models.ErrAPIError "Upstream API error" requestID ts
  else
    respondWithError 500 Models.ErrInternalError "Internal server error"
      requestID ts

/-- `HandleMCPRequest`: rate limit by client key, validate `{method}` against
the whitelist, parse the envelope (`body = none` models a bind failure),
check the protocol version, then dispatch; `outcome` is the oracle for
`processMCPMethod` (a result payload, or the error whose message feeds
`handleMethodError` — the per-method deadline surfaces there as an error
containing "timeout").  Returns (HTTP status, response body) and the updated
rate-limiter state. -/
def HandleMCPRequest (rl : RateLimiter) (ip : String) (now : Int)
    (method : String) (body : Option Models.JSONRPCRequest)
    (outcome : Except String String) (ts : String) :
    (Nat × Models.JSONRPCResponse) × RateLimiter :=
  match Allow rl ip now with
  | (allowed, rl') =>
    if !allowed then
      (respondWithError 429 Models.ErrRateLimited "Rate limit exceeded" 0 ts,
       rl')
    else if !(ValidMethods method) then
      (respondWithError 400 Models.ErrInvalidRequest
        ("Invalid method: " ++ method) 0 ts, rl')
    else
      match body with
      | none =>
        (respondWithError 400 Models.ErrInvalidRequest
          "Invalid request format" 0 ts, rl')
      | some req =>
        if req.JSONRPC ≠ "2.0" then
          (respondWithError 400 Models.ErrInvalidRequest
            "Unsupported JSON-RPC version" req.ID ts, rl')
        else
          match outcome with
          | .ok result =>
            ((200, { JSONRPC := "2.0", Result := some result, Error := none,
                     ID := req.ID }), rl')
          | .error e => (handleMethodError e req.ID ts, rl')

end Handlers

namespace PostSvc

/-- Character-wise `html.EscapeString` replacement table. -/
def escChar (c : Char) : List Char :=
  if c = '&' then "&amp;".toList
  else if c.toNat = 39 then "&#39;".toList
  else if c = '<' then "&lt;".toList
  else if c = '>' then "&gt;".toList
  else if c = '"' then "&#34;".toList
  else [c]

/-- Go `html.EscapeString`. -/
def escapeString (s : String) : String := String.mk (s.toList.flatMap escChar)

/-- Substitute the (single) `%s` verb of a format string, as
`fmt.Sprintf(format, arg)` does for the one-verb templates below. -/
def substFirst : List Char → List Char → List Char
  | [], _ => []
  | '%' :: 's' :: rest, arg => arg ++ rest
  | c :: rest, arg => c :: substFirst rest arg

/-- `fmt.Sprintf` specialised to one `%s` verb. -/
def formatS (format arg : String) : String := String.mk (substFirst format.toList arg.toList)

/-- Template lists from `internal/services/post/assist.go`. -/
def happyTemplates : List String :=
  ["Today is a great day!",
   "Feeling so positive right now!",
   "Nothing but blue skies today!",
   "So happy I could burst!",
   "What a wonderful day it\x27s turning out to be!"]

def sadTemplates : List String :=
  ["Feeling a bit down today.",
   "Having one of those days...",
   "Sometimes things don\x27t go as planned.",
   "Looking for a silver lining today.",
   "When it rains, it pours."]

def excitedTemplates : List String :=
  ["I can\x27t contain my excitement!",
   "You won\x27t believe what just happened!",
   "This is absolutely incredible!",
   "I\x27m literally bouncing with energy!",
   "Big news coming your way!"]

def thoughtfulTemplates : List String :=
  ["I\x27ve been pondering something interesting.",
   "Here\x27s a thought worth sharing:",
   "Something to consider today:",
   "Been reflecting on this lately:",
   "Food for thought:"]

def topicTemplates : List String :=
  [" I want to talk about %s.",
   " Let\x27s discuss %s today.",
   " Has anyone else been thinking about %s?",
   " What are your thoughts on %s?",
   " %s has been on my mind lately.",
   " Anyone interested in %s?",
   " %s is something we should all explore more.",
   " I\x27ve been fascinated by %s recently."]

def fallbackTemplates : List String :=
  ["Let\x27s post something interesting!",
   "What\x27s on everyone\x27s mind today?",
   "How\x27s everyone doing?",
   "Anything exciting happening?",
   "Just wanted to check in!",
   "Happy to connect with you all!",
   "Thoughts?",
   "Open to interesting conversations today!"]

/-- `GeneratePost` from `internal/services/post/assist.go`.  A failed type
assertion on the `mood` / `topic` params yields the empty string (`none`
here); the template selector `pick` abstracts `getRandomTemplate`.  The
topic-length guard is Go `len(topic) > 200`, which counts UTF-8 bytes.  On
success the returned suggestion string models the `{"suggestion": …}`
payload. -/
def GeneratePost (moodParam topicParam : Option String)
    (pick : List String → String) : Except String String :=
  let mood := moodParam.getD ""
  let topic := topicParam.getD ""
  if 200 < topic.utf8ByteSize then .error "topic too long"
  else
    let topic := escapeString topic
    let suggestion :=
      match mood with
      | "happy" => pick happyTemplates
      | "sad" => pick sadTemplates
      | "excited" => pick excitedTemplates
      | "thoughtful" => pick thoughtfulTemplates
      | _ => ""
    let suggestion :=
      if topic ≠ "" then
        if suggestion ≠ "" then
          suggestion ++ formatS (pick topicTemplates) topic
        else
          let s := formatS (pick topicTemplates) topic
          match s.toList with
          | ' ' :: rest => String.mk rest
          | _ => s
      else suggestion
    let suggestion := if suggestion = "" then pick fallbackTemplates else suggestion
    .ok suggestion

end PostSvc

/-! Concrete instances used by witnesses and counterexamples. -/

/-- Default breaker configuration (`DefaultCircuitBreakerConfig`). -/
def defaultBreakerCfg : ApiClient.CircuitBreakerConfig :=
  { FailureThreshold := 5, ResetTimeout := 30, SuccessThreshold := 2,
    LastFailureResetMs := 60000 }

/-- A fresh client with the default breaker configuration and no fallbacks. -/
def c1Client : ApiClient.BlueskyClient :=
  { CircuitBreaker := defaultBreakerCfg, currentFailures := 0,
    isCircuitOpen := false, circuitLastChecked := 0,
    FallbackResponses := fun _ => none }

/-- A transport error whose `net.Error` assertion succeeds with
`Timeout() = true`. -/
def c1NetTimeoutErr : ApiClient.GoError :=
  { isNetError := true, temporary := false, timeout := true,
    message := "read tcp 10.0.0.1:443: i/o timeout" }

/-- The wrapped transport error `executeRequest` produces for an EOF from the
upstream connection: the `fmt.Errorf("request failed: %w", …)` wrapper is not
a `net.Error`, and its message contains "EOF". -/
def c1EofErr : ApiClient.GoError :=
  { isNetError := false, temporary := false, timeout := false,
    message := "request failed: unexpected EOF" }

/-- Primary-credential error for the backup-ladder counterexample. -/
def c2ErrA : ApiClient.GoError :=
  { isNetError := false, temporary := false, timeout := false,
    message := "authentication failed: API error (status 401)" }

/-- Backup-credential error for the backup-ladder counterexample. -/
def c2ErrB : ApiClient.GoError :=
  { isNetError := false, temporary := false, timeout := false,
    message := "authentication failed: API error (status 403)" }

/-- Primary configuration for the backup-ladder counterexample. -/
def c2Cfg : Auth.Config :=
  { BskyID := "primary@example.com", BskyPassword := "pw",
    BskyHost := "https://bsky.social" }

/-- A backup credential with no override host. -/
def c2Backup : Auth.BackupCredentials :=
  { BskyID := "backup@example.com", BskyPassword := "pw2", BskyHost := "" }

/-- Retried-create oracle: the primary credentials fail with `c2ErrA`, every
other identity fails with `c2ErrB`. -/
def c2Attempt (cfg : Auth.Config) : Except ApiClient.GoError String :=
  if cfg.BskyID = "primary@example.com" then .error c2ErrA else .error c2ErrB

/-- A syntactically valid JWT: "eyJ" followed by 97 filler characters,
100 bytes in total. -/
def c5Jwt : String := "eyJ" ++ String.mk (List.replicate 97 'a')

/-- A session holding `c5Jwt`, expiring at instant 100. -/
def c5Session : Auth.Session :=
  { AccessJWT := c5Jwt, RefreshJWT := "refresh", Handle := "u.bsky.social",
    DID := "did:plc:abc", ExpiresAt := 100 }

/-- Deterministic template selector (first template), as the unit tests
install. -/
def pickFirst (templates : List String) : String := templates.headD ""

/-- A 201-byte ASCII topic. -/
def c9TopicLong : String := String.mk (List.replicate 201 'a')

/-- A topic of 100 code points that occupies 300 UTF-8 bytes. -/
def c9TopicWide : String := String.mk (List.replicate 100 'あ')

/-- A breaker configuration with threshold 2 for the threshold witness. -/
def c3Client : ApiClient.BlueskyClient :=
  { CircuitBreaker := { FailureThreshold := 2, ResetTimeout := 30,
                        SuccessThreshold := 2, LastFailureResetMs := 60000 }
    currentFailures := 0, isCircuitOpen := false, circuitLastChecked := 0,
    FallbackResponses := fun _ => none }

/-- A client whose breaker opened at instant 0, with a fallback registered
for the timeline endpoint. -/
def c4Client : ApiClient.BlueskyClient :=
  { CircuitBreaker := defaultBreakerCfg, currentFailures := 5,
    isCircuitOpen := true, circuitLastChecked := 0,
    FallbackResponses := fun ep =>
      if ep = "app.bsky.feed.getTimeline" then some [1, 2, 3] else none }

/-- The same client with a closed breaker, for the exhausted-retries
fallback witness. -/
def c4ClosedClient : ApiClient.BlueskyClient :=
  { c4Client with isCircuitOpen := false, currentFailures := 0 }

/-- A session with no credentials at all (fresh token manager). -/
def c2EmptySession : Auth.Session :=
  { AccessJWT := "", RefreshJWT := "", Handle := "", DID := "", ExpiresAt := 0 }

/-- An envelope whose id is 5, arriving at an unknown method. -/
def c7Req : Models.JSONRPCRequest :=
  { JSONRPC := "2.0", Method := "bogus", ID := 5 }

/-- A well-formed envelope for a whitelisted method. -/
def c7ReqOk : Models.JSONRPCRequest :=
  { JSONRPC := "2.0", Method := "post-assist", ID := 7 }

/-- Limiter state after 60 admitted requests from one client within the
one-minute window, starting from the package-level limiter. -/
def c8Limiter : Handlers.RateLimiter :=
  (Handlers.runLimiter (Handlers.rateLimiterInit 0)
    (List.replicate 60 ("203.0.113.9", 1))).1

/-- Rate-limiter state of the denial witness: one admission recorded, with a
capacity of zero. -/
def c10Limiter : Handlers.RateLimiter :=
  { requests := fun k => if k = "192.0.2.1" then [5] else []
    windowSize := 10, maxRequests := 0, cleanupPeriod := 1000,
    lastCleanup := 0 }

/-- Membership of an admitted (key, instant) pair in the half-open rolling
window (T, T + W] for key `k`. -/
def inWindow (W : Int) (k : String) (T : Int) (p : String × Int) : Bool :=
  decide (p.1 = k) && decide (T < p.2) && decide (p.2 ≤ T + W)

/-- Key-`k` admissions strictly after the cutoff instant `c`. -/
def afterCut (k : String) (c : Int) (p : String × Int) : Bool :=
  decide (p.1 = k) && decide (c < p.2)

/-- Invariant tying a limiter state to the list `adm` of admissions granted
so far, with `tmax` an upper bound on all instants seen: every admission is
no later than `tmax`; for every cutoff no older than `tmax - windowSize` the
recent admissions of a key are all still counted in its stored list; and
every rolling window already holds at most `maxRequests` admissions per
key. -/
def LimInv (st : Handlers.RateLimiter) (adm : List (String × Int))
    (tmax : Int) : Prop :=
  (∀ p ∈ adm, p.2 ≤ tmax) ∧
  (∀ (k : String) (c : Int), tmax - st.windowSize ≤ c →
    adm.countP (afterCut k c)
      ≤ (st.requests k).countP (fun s => decide (c < s))) ∧
  (∀ (T : Int) (k : String),
    adm.countP (inWindow st.windowSize k T) ≤ st.maxRequests)

/-! Theorems. -/

/-- One-step unfolding of the retry loop on a failing attempt with attempts
remaining. -/
theorem backoffRetry_fail_cons (c : ApiClient.BlueskyClient) (t : Int)
    (e : ApiClient.GoError) (a : Int × ApiClient.Attempt)
    (more : List (Int × ApiClient.Attempt)) :
    ApiClient.backoffRetry c (t, .fail e) (a :: more) =
      if ApiClient.isRetryableError e then
        ApiClient.backoffRetry (ApiClient.recordFailure c t) a more
      else (.error e, ApiClient.recordFailure c t) := rfl

/-- Claim C1, counterexample: the wrapped transport error
"request failed: unexpected EOF" is retryable according to the claim's list
(which includes "EOF" and "i/o timeout") but `pkg/apiclient`'s
`isRetryableError` classifies it as permanent, so the retry loop surfaces it
without consuming the available second attempt. -/
theorem apiclient_retry_eof_cex :
    retryableBySpec c1EofErr = true ∧
    ApiClient.isRetryableError c1EofErr = false ∧
    (ApiClient.backoffRetry c1Client (0, .fail c1EofErr) [(2, .ok [1])]).1 =
      .error c1EofErr := by
  refine ⟨by decide, by decide, ?_⟩
  rfl

/-- Claim C1 (amended): for the apiclient, an attempt's error is retried iff
it is a `net.Error` reporting temporary or timeout, or otherwise its message
contains one of "status 500", "status 502", "status 503", "status 504",
"connection refused", "no such host" — the substrings "EOF" and
"i/o timeout" are not in the apiclient's list (they appear only in the auth
package's classifier).  Every other error short-circuits the retry loop
(`backoff.Permanent`), while a retryable error consumes the next attempt and
surfaces only when the attempt budget is exhausted. -/
theorem apiclient_retry_decision (c : ApiClient.BlueskyClient) (t : Int)
    (e : ApiClient.GoError) (a : Int × ApiClient.Attempt)
    (more : List (Int × ApiClient.Attempt)) :
    (ApiClient.isRetryableError e = true ↔
      (e.isNetError = true ∧ (e.temporary = true ∨ e.timeout = true)) ∨
      (e.isNetError = false ∧
        (strContains e.message "status 500" = true ∨
         strContains e.message "status 502" = true ∨
         strContains e.message "status 503" = true ∨
         strContains e.message "status 504" = true ∨
         strContains e.message "connection refused" = true ∨
         strContains e.message "no such host" = true))) ∧
    (ApiClient.isRetryableError e = false →
      ApiClient.backoffRetry c (t, .fail e) (a :: more) =
        (.error e, ApiClient.recordFailure c t)) ∧
    (ApiClient.isRetryableError e = true →
      ApiClient.backoffRetry c (t, .fail e) (a :: more) =
        ApiClient.backoffRetry (ApiClient.recordFailure c t) a more) ∧
    (ApiClient.backoffRetry c (t, .fail e) [] =
      (.error e, ApiClient.recordFailure c t)) := by
  refine ⟨?_, ?_, ?_, ?_⟩
  · cases h : e.isNetError <;>
      simp [ApiClient.isRetryableError, h, Bool.or_eq_true, or_assoc]
  · intro h
    rw [backoffRetry_fail_cons, if_neg (by simp [h])]
  · intro h
    rw [backoffRetry_fail_cons, if_pos h]
  · cases h : ApiClient.isRetryableError e <;>
      simp [ApiClient.backoffRetry, h]

/-- Witness for `apiclient_retry_decision`: a timeout-reporting `net.Error`
is retryable and the loop moves on to the next attempt. -/
theorem apiclient_retry_decision_witness :
    ApiClient.isRetryableError c1NetTimeoutErr = true ∧
    ApiClient.backoffRetry c1Client (0, .fail c1NetTimeoutErr) [(2, .ok [1])] =
      ApiClient.backoffRetry (ApiClient.recordFailure c1Client 0)
        (2, .ok [1]) [] :=
  ⟨by decide,
   (apiclient_retry_decision c1Client 0 c1NetTimeoutErr (2, .ok [1]) []).2.2.1
     (by decide)⟩

/-- Claim C5 (confirmed): a stored bearer is valid iff it is non-empty,
begins with "eyJ", is at least 100 bytes long and the current instant is
before the recorded expiration; only the stored credential is ever returned,
and a valid credential makes `GetToken` return it for every behaviour of the
refresh and create oracles (no upstream call). -/
theorem auth_token_validity (s : Auth.Session) (now : Int) :
    (Auth.getValidTokenUnlocked s now = some s.AccessJWT ↔
      (s.AccessJWT ≠ "" ∧ hasStrPre s.AccessJWT "eyJ" = true ∧
       100 ≤ s.AccessJWT.utf8ByteSize ∧ now < s.ExpiresAt)) ∧
    (∀ t, Auth.getValidTokenUnlocked s now = some t → t = s.AccessJWT) ∧
    (∀ refreshA createA backups cfg,
       Auth.getValidTokenUnlocked s now = some s.AccessJWT →
       Auth.GetToken s now refreshA createA backups cfg = .ok s.AccessJWT) := by
  refine ⟨?_, ?_, ?_⟩
  · unfold Auth.getValidTokenUnlocked Auth.isValidJWT
    split_ifs with h1 h2 h3 <;>
      simp_all [Bool.and_eq_true, decide_eq_true_eq]
  · intro t h
    unfold Auth.getValidTokenUnlocked at h
    split_ifs at h <;> simp_all
  · intro refreshA createA backups cfg h
    simp [Auth.GetToken, h]

/-- Witness for `auth_token_validity`: a 100-byte "eyJ…" token before its
expiration is returned directly by `GetToken`. -/
theorem auth_token_validity_witness :
    Auth.getValidTokenUnlocked c5Session 50 = some c5Session.AccessJWT ∧
    Auth.GetToken c5Session 50 (.error c1EofErr) (fun _ => .error c2ErrA) []
      c2Cfg = .ok c5Session.AccessJWT :=
  ⟨by decide,
   (auth_token_validity c5Session 50).2.2 (.error c1EofErr)
     (fun _ => .error c2ErrA) [] c2Cfg (by decide)⟩

/-- Claim C9, counterexample: a topic of 100 code points (well under 200)
whose UTF-8 form is 300 bytes is rejected with "topic too long", because the
guard is Go `len(topic) > 200`, a byte count. -/
theorem post_topic_bytes_cex :
    c9TopicWide.length = 100 ∧
    PostSvc.GeneratePost none (some c9TopicWide) pickFirst =
      .error "topic too long" := by
  constructor
  · decide
  · rfl

/-- Claim C9 (amended): `GeneratePost` rejects with "topic too long" iff the
supplied topic exceeds 200 UTF-8 bytes (not code points); this is the only
error it produces. -/
theorem post_topic_length (moodParam topicParam : Option String)
    (pick : List String → String) :
    (PostSvc.GeneratePost moodParam topicParam pick = .error "topic too long"
      ↔ 200 < (topicParam.getD "").utf8ByteSize) ∧
    (∀ e, PostSvc.GeneratePost moodParam topicParam pick = .error e →
      e = "topic too long") := by
  by_cases hb : 200 < (topicParam.getD "").utf8ByteSize
  · constructor
    · simpa [PostSvc.GeneratePost, hb] using hb
    · intro e h
      simp [PostSvc.GeneratePost, hb] at h
      exact h.symm
  · constructor
    · constructor
      · intro h
        simp [PostSvc.GeneratePost, hb] at h
      · intro h; exact absurd h hb
    · intro e h
      simp [PostSvc.GeneratePost, hb] at h

/-- Witness for `post_topic_length`: a 201-byte ASCII topic is rejected. -/
theorem post_topic_length_witness :
    200 < ((some c9TopicLong).getD "").utf8ByteSize ∧
    PostSvc.GeneratePost none (some c9TopicLong) pickFirst =
      .error "topic too long" :=
  ⟨by decide,
   (post_topic_length none (some c9TopicLong) pickFirst).1.mpr (by decide)⟩

/-- Claim C10 (confirmed): when `Allow` denies a request, no instant is added
anywhere — every entry of every key's list in the resulting state was already
present before the call (only the periodic sweep may have removed old ones),
so a denied request consumes no rate-limit budget. -/
theorem rate_limiter_deny_frame (rl : Handlers.RateLimiter) (ip : String)
    (now : Int) (hdeny : (Handlers.Allow rl ip now).1 = false) :
    ∀ k x, x ∈ (Handlers.Allow rl ip now).2.requests k → x ∈ rl.requests k := by
  intro k x hx
  have hsub : ∀ y, y ∈ (Handlers.cleanupDue rl now).requests k →
      y ∈ rl.requests k := by
    intro y hy
    unfold Handlers.cleanupDue Handlers.cleanup at hy
    split at hy
    · exact List.mem_of_mem_filter hy
    · exact hy
  have hstate : (Handlers.Allow rl ip now).2 = Handlers.cleanupDue rl now := by
    unfold Handlers.Allow Handlers.allowCore at hdeny ⊢
    split
    · rfl
    · next h =>
      rw [if_neg h] at hdeny
      simp at hdeny
  rw [hstate] at hx
  exact hsub x hx

/-- Witness for `rate_limiter_deny_frame`: a zero-capacity limiter denies and
its single recorded instant is untouched. -/
theorem rate_limiter_deny_frame_witness :
    (Handlers.Allow c10Limiter "192.0.2.1" 6).1 = false ∧
    (5 : Int) ∈ c10Limiter.requests "192.0.2.1" :=
  ⟨by decide,
   rate_limiter_deny_frame c10Limiter "192.0.2.1" 6 (by decide) "192.0.2.1" 5
     (by decide)⟩


/-- Helper: when the backup loop surfaces an error it is exactly the primary
error it was handed, and every backup's retried attempt failed. -/
theorem tryBackups_error (attempt : Auth.Config → Except ApiClient.GoError String)
    (mainCfg : Auth.Config) (pe : ApiClient.GoError)
    (bs : List Auth.BackupCredentials) (e : ApiClient.GoError)
    (h : Auth.tryBackups attempt mainCfg pe bs = .error e) :
    e = pe ∧ ∀ b ∈ bs, ∃ eb,
      attempt (Auth.backupToConfig mainCfg.BskyHost b) = .error eb := by
  induction bs with
  | nil =>
    refine ⟨?_, by simp⟩
    simp [Auth.tryBackups] at h
    exact h.symm
  | cons b rest ih =>
    unfold Auth.tryBackups at h
    cases hab : attempt (Auth.backupToConfig mainCfg.BskyHost b) with
    | ok tok =>
      rw [hab] at h
      simp at h
    | error eb =>
      rw [hab] at h
      obtain ⟨he, hall⟩ := ih h
      refine ⟨he, ?_⟩
      intro b' hb'
      rcases List.mem_cons.mp hb' with rfl | hmem
      · exact ⟨eb, hab⟩
      · exact hall b' hmem

/-- Helper: a failing `createSessionWithRetries` means the primary retried
attempt failed with exactly the surfaced error and every backup failed too. -/
theorem createSessionWithRetries_error
    (attempt : Auth.Config → Except ApiClient.GoError String)
    (backups : List Auth.BackupCredentials) (cfg : Auth.Config)
    (e : ApiClient.GoError)
    (h : Auth.createSessionWithRetries attempt backups cfg = .error e) :
    attempt cfg = .error e ∧ ∀ b ∈ backups, ∃ eb,
      attempt (Auth.backupToConfig cfg.BskyHost b) = .error eb := by
  unfold Auth.createSessionWithRetries at h
  cases hp : attempt cfg with
  | ok tok =>
    rw [hp] at h
    simp at h
  | error pe =>
    rw [hp] at h
    obtain ⟨he, hall⟩ := tryBackups_error attempt cfg pe backups e h
    exact ⟨by rw [he], hall⟩

/-- Helper: the first succeeding backup's token is returned. -/
theorem tryBackups_success
    (attempt : Auth.Config → Except ApiClient.GoError String)
    (mainCfg : Auth.Config) (pe : ApiClient.GoError) (t : String) :
    ∀ (pre : List Auth.BackupCredentials) (b : Auth.BackupCredentials)
      (post : List Auth.BackupCredentials),
      (∀ b' ∈ pre, ∃ e',
        attempt (Auth.backupToConfig mainCfg.BskyHost b') = .error e') →
      attempt (Auth.backupToConfig mainCfg.BskyHost b) = .ok t →
      Auth.tryBackups attempt mainCfg pe (pre ++ b :: post) = .ok t := by
  intro pre
  induction pre with
  | nil =>
    intro b post _ hb
    simp only [List.nil_append]
    unfold Auth.tryBackups
    rw [hb]
  | cons b0 rest ih =>
    intro b post hpre hb
    obtain ⟨e0, he0⟩ := hpre b0 (List.mem_cons_self b0 rest)
    show Auth.tryBackups attempt mainCfg pe (b0 :: (rest ++ b :: post)) = .ok t
    unfold Auth.tryBackups
    rw [he0]
    exact ih b post (fun b' hb' => hpre b' (List.mem_cons_of_mem b0 hb')) hb

/-- Claim C2, counterexample: with the primary credentials failing with a
401-style error and the single backup failing with a distinct 403-style
error, `createSessionWithRetries` surfaces the primary attempt's error, not
the last (backup) error, so "all failures surface the last error" is false. -/
theorem auth_last_error_cex :
    Auth.createSessionWithRetries c2Attempt [c2Backup] c2Cfg = .error c2ErrA ∧
    c2Attempt (Auth.backupToConfig c2Cfg.BskyHost c2Backup) = .error c2ErrB ∧
    c2ErrA ≠ c2ErrB :=
  ⟨rfl, rfl, by decide⟩

/-- Claim C2 (amended): `GetToken` fails only after the stored credential was
found invalid, the refresh attempt (when a refresh credential exists), the
retried session-create with the primary credentials, and every registered
backup credential (each attempted under the same retried create against its
override host, or the primary host when it records none) have all failed; the
first succeeding backup's token is returned, and when every attempt fails the
error surfaced is the one from the primary-credentials attempt (each backup's
own error is discarded). -/
theorem auth_backup_ladder :
    (∀ (s : Auth.Session) (now : Int)
       (refreshA : Except ApiClient.GoError Auth.Session)
       (createA : Auth.Config → Except ApiClient.GoError String)
       (backups : List Auth.BackupCredentials) (cfg : Auth.Config)
       (e : ApiClient.GoError),
       Auth.GetToken s now refreshA createA backups cfg = .error e →
       Auth.getValidTokenUnlocked s now = none ∧
       (s.RefreshJWT ≠ "" → ∃ er, refreshA = .error er) ∧
       createA cfg = .error e ∧
       (∀ b ∈ backups, ∃ eb,
         createA (Auth.backupToConfig cfg.BskyHost b) = .error eb)) ∧
    (∀ (createA : Auth.Config → Except ApiClient.GoError String)
       (cfg : Auth.Config) (pre : List Auth.BackupCredentials)
       (b : Auth.BackupCredentials) (post : List Auth.BackupCredentials)
       (t : String) (e0 : ApiClient.GoError),
       createA cfg = .error e0 →
       (∀ b' ∈ pre, ∃ e',
         createA (Auth.backupToConfig cfg.BskyHost b') = .error e') →
       createA (Auth.backupToConfig cfg.BskyHost b) = .ok t →
       Auth.createSessionWithRetries createA (pre ++ b :: post) cfg = .ok t) := by
  constructor
  · intro s now refreshA createA backups cfg e h
    unfold Auth.GetToken at h
    split at h
    · simp at h
    · next heq =>
      refine ⟨heq, ?_⟩
      split at h
      · next hrefresh =>
        cases hr : refreshA with
        | ok s' =>
          rw [hr] at h
          simp at h
        | error er =>
          rw [hr] at h
          obtain ⟨hp, hall⟩ :=
            createSessionWithRetries_error createA backups cfg e h
          exact ⟨fun _ => ⟨er, rfl⟩, hp, hall⟩
      · next hrefresh =>
        obtain ⟨hp, hall⟩ :=
          createSessionWithRetries_error createA backups cfg e h
        exact ⟨fun hne => absurd hne hrefresh, hp, hall⟩
  · intro createA cfg pre b post t e0 h0 hpre hb
    unfold Auth.createSessionWithRetries
    rw [h0]
    exact tryBackups_success createA cfg e0 t pre b post hpre hb

/-- Witness for `auth_backup_ladder`: with no stored session, primary and the
lone backup both failing, `GetToken` fails with the primary error, and the
theorem recovers that the primary attempt indeed produced it. -/
theorem auth_backup_ladder_witness :
    Auth.GetToken c2EmptySession 5 (.error c2ErrB) c2Attempt [c2Backup] c2Cfg
      = .error c2ErrA ∧
    c2Attempt c2Cfg = .error c2ErrA :=
  ⟨rfl,
   (auth_backup_ladder.1 c2EmptySession 5 (.error c2ErrB) c2Attempt [c2Backup]
     c2Cfg c2ErrA rfl).2.2.1⟩

/-- Helper: `respondWithError` never carries a result. -/
theorem respondWithError_Result (s : Nat) (c m : String) (i : Int) (ts : String) :
    (Handlers.respondWithError s c m i ts).2.Result = none := by
  unfold Handlers.respondWithError
  split <;> rfl

/-- Helper: `respondWithError` always carries an error of the given code. -/
theorem respondWithError_Code (s : Nat) (c m : String) (i : Int) (ts : String) :
    ((Handlers.respondWithError s c m i ts).2.Error.map Models.ErrorInfo.Code)
      = some c := by
  unfold Handlers.respondWithError
  split <;> rfl

/-- Helper: `respondWithError` echoes the id it is given. -/
theorem respondWithError_ID (s : Nat) (c m : String) (i : Int) (ts : String) :
    (Handlers.respondWithError s c m i ts).2.ID = i := by
  unfold Handlers.respondWithError
  split <;> rfl

/-- Helper: `respondWithError` always carries an error member. -/
theorem respondWithError_Error_isSome (s : Nat) (c m : String) (i : Int)
    (ts : String) :
    (Handlers.respondWithError s c m i ts).2.Error.isSome = true := by
  unfold Handlers.respondWithError
  split <;> rfl

/-- Helper: `handleMethodError` responses carry no result, some error, and
echo the request id. -/
theorem handleMethodError_shape (e : String) (i : Int) (ts : String) :
    (Handlers.handleMethodError e i ts).2.Result = none ∧
    (Handlers.handleMethodError e i ts).2.Error.isSome = true ∧
    (Handlers.handleMethodError e i ts).2.ID = i := by
  unfold Handlers.handleMethodError
  split_ifs <;>
    exact ⟨respondWithError_Result .., respondWithError_Error_isSome ..,
      respondWithError_ID ..⟩

/-- Claim C7, counterexample: a request to an unknown method carrying an
envelope with id 5 is answered with an error response whose id is 0 (the
method is validated before the body is bound), so not every response mirrors
the incoming envelope's id. -/
theorem gateway_id_cex :
    c7Req.ID = 5 ∧
    (Handlers.HandleMCPRequest (Handlers.rateLimiterInit 0) "203.0.113.9" 1
      "bogus" (some c7Req) (.ok "r") "ts").1.2.ID = 0 :=
  ⟨rfl, rfl⟩

/-- Claim C7 (amended): every gateway response carries exactly one of the
result and error members; responses issued after the envelope has been
admitted by the rate limiter and the method validated mirror the envelope's
id, while the rate-limit, unknown-method and parse-failure responses carry
id 0. -/
theorem gateway_response_shape (rl : Handlers.RateLimiter) (ip : String)
    (now : Int) (method : String) (body : Option Models.JSONRPCRequest)
    (outcome : Except String String) (ts : String) :
    (((Handlers.HandleMCPRequest rl ip now method body outcome ts).1.2.Result.isSome
        && (Handlers.HandleMCPRequest rl ip now method body outcome ts).1.2.Error.isSome)
      = false) ∧
    (((Handlers.HandleMCPRequest rl ip now method body outcome ts).1.2.Result.isSome
        || (Handlers.HandleMCPRequest rl ip now method body outcome ts).1.2.Error.isSome)
      = true) ∧
    (∀ req, body = some req → (Handlers.Allow rl ip now).1 = true →
      Handlers.ValidMethods method = true →
      (Handlers.HandleMCPRequest rl ip now method body outcome ts).1.2.ID
        = req.ID) := by
  rcases hA : Handlers.Allow rl ip now with ⟨allowed, rl'⟩
  unfold Handlers.HandleMCPRequest
  rw [hA]
  cases allowed with
  | false =>
    refine ⟨?_, ?_, ?_⟩
    · simp [respondWithError_Result]
    · simp [respondWithError_Error_isSome]
    · intro req hb hallow
      simp at hallow
  | true =>
    by_cases hm : Handlers.ValidMethods method
    · cases body with
      | none =>
        refine ⟨?_, ?_, ?_⟩
        · simp [hm, respondWithError_Result]
        · simp [hm, respondWithError_Error_isSome]
        · intro req hb _
          cases hb
      | some req =>
        by_cases hv : req.JSONRPC = "2.0"
        · cases outcome with
          | ok r =>
            refine ⟨?_, ?_, ?_⟩
            · simp [hm, hv]
            · simp [hm, hv]
            · intro req' hb _ _
              cases hb
              simp [hm, hv]
          | error e =>
            refine ⟨?_, ?_, ?_⟩
            · simp [hm, hv, (handleMethodError_shape e req.ID ts).1]
            · simp [hm, hv, (handleMethodError_shape e req.ID ts).2.1]
            · intro req' hb _ _
              cases hb
              simp [hm, hv, (handleMethodError_shape e req.ID ts).2.2]
        · refine ⟨?_, ?_, ?_⟩
          · simp [hm, hv, respondWithError_Result]
          · simp [hm, hv, respondWithError_Error_isSome]
          · intro req' hb _ _
            cases hb
            simp [hm, hv, respondWithError_ID]
    · refine ⟨?_, ?_, ?_⟩
      · simp [hm, respondWithError_Result]
      · simp [hm, respondWithError_Error_isSome]
      · intro req hb _ hvm
        exact absurd hvm (by simpa using hm)

/-- Witness for `gateway_response_shape`: an admitted, whitelisted request
with envelope id 7 is answered with id 7. -/
theorem gateway_response_shape_witness :
    (Handlers.Allow (Handlers.rateLimiterInit 0) "198.51.100.7" 2).1 = true ∧
    (Handlers.HandleMCPRequest (Handlers.rateLimiterInit 0) "198.51.100.7" 2
      "post-assist" (some c7ReqOk) (.ok "r") "ts").1.2.ID = c7ReqOk.ID :=
  ⟨by decide,
   (gateway_response_shape (Handlers.rateLimiterInit 0) "198.51.100.7" 2
     "post-assist" (some c7ReqOk) (.ok "r") "ts").2.2 c7ReqOk rfl (by decide)
     (by decide)⟩

/-- Claim C8, counterexample: after 60 admitted requests in the window, a
request to an unknown method from the same client is answered 429
`rate_limited`, not 400 `invalid_request` — rate limiting precedes method
validation. -/
theorem gateway_rate_limited_cex :
    Handlers.ValidMethods "bogus" = false ∧
    (Handlers.HandleMCPRequest c8Limiter "203.0.113.9" 1 "bogus" (some c7Req)
      (.ok "r") "ts").1.1 = 429 ∧
    (Handlers.HandleMCPRequest c8Limiter "203.0.113.9" 1 "bogus" (some c7Req)
      (.ok "r") "ts").1.2.Error =
      some { Code := Models.ErrRateLimited, Message := "Rate limit exceeded",
             Details := none } := by
  refine ⟨by decide, ?_, ?_⟩
  · rfl
  · rfl

/-- Claim C8 (amended): every request admitted by the rate limiter whose
method is not whitelisted is answered with HTTP 400 and a JSON-RPC error of
code `invalid_request`. -/
theorem gateway_unknown_method (rl : Handlers.RateLimiter) (ip : String)
    (now : Int) (method : String) (body : Option Models.JSONRPCRequest)
    (outcome : Except String String) (ts : String)
    (hallow : (Handlers.Allow rl ip now).1 = true)
    (hm : Handlers.ValidMethods method = false) :
    (Handlers.HandleMCPRequest rl ip now method body outcome ts).1.1 = 400 ∧
    (Handlers.HandleMCPRequest rl ip now method body outcome ts).1.2.Error =
      some { Code := Models.ErrInvalidRequest,
             Message := "Invalid method: " ++ method, Details := none } := by
  rcases hA : Handlers.Allow rl ip now with ⟨allowed, rl'⟩
  rw [hA] at hallow
  unfold Handlers.HandleMCPRequest
  rw [hA]
  cases allowed with
  | false => simp at hallow
  | true =>
    simp only [Bool.not_true, Bool.false_eq_true, if_false, hm, Bool.not_false,
      if_true]
    exact ⟨rfl, rfl⟩

/-- Witness for `gateway_unknown_method`: a fresh limiter admits, and the
unknown method "bogus" yields 400 `invalid_request`. -/
theorem gateway_unknown_method_witness :
    (Handlers.Allow (Handlers.rateLimiterInit 0) "198.51.100.7" 2).1 = true ∧
    (Handlers.HandleMCPRequest (Handlers.rateLimiterInit 0) "198.51.100.7" 2
      "bogus" (some c7ReqOk) (.ok "r") "ts").1.1 = 400 :=
  ⟨by decide,
   (gateway_unknown_method (Handlers.rateLimiterInit 0) "198.51.100.7" 2
     "bogus" (some c7ReqOk) (.ok "r") "ts" (by decide) (by decide)).1⟩

/-- Helper: `recordFailure` preserves configuration and registry and
increments the counter. -/
theorem recordFailure_fields (c : ApiClient.BlueskyClient) (t : Int) :
    (ApiClient.recordFailure c t).CircuitBreaker = c.CircuitBreaker ∧
    (ApiClient.recordFailure c t).FallbackResponses = c.FallbackResponses ∧
    (ApiClient.recordFailure c t).currentFailures = c.currentFailures + 1 := by
  unfold ApiClient.recordFailure
  split <;> exact ⟨rfl, rfl, rfl⟩

/-- Helper: the retry loop on an exhausted attempt list surfaces the error. -/
theorem backoffRetry_fail_nil (c : ApiClient.BlueskyClient) (t : Int)
    (e : ApiClient.GoError) :
    ApiClient.backoffRetry c (t, .fail e) [] =
      (.error e, ApiClient.recordFailure c t) := by
  cases h : ApiClient.isRetryableError e <;> simp [ApiClient.backoffRetry, h]

/-- Helper: when every attempt fails, the retry loop ends in an error (either
by `backoff.Permanent` or by exhausting the attempt budget) and the fallback
registry of the final state is the one it started with. -/
theorem backoffRetry_all_fail :
    ∀ (rest : List (Int × ApiClient.Attempt)) (c : ApiClient.BlueskyClient)
      (t : Int) (e : ApiClient.GoError),
      (∀ p ∈ rest, ∃ e', p.2 = ApiClient.Attempt.fail e') →
      ∃ e'' c'', ApiClient.backoffRetry c (t, .fail e) rest = (.error e'', c'')
        ∧ c''.FallbackResponses = c.FallbackResponses := by
  intro rest
  induction rest with
  | nil =>
    intro c t e _
    exact ⟨e, ApiClient.recordFailure c t, backoffRetry_fail_nil c t e,
      (recordFailure_fields c t).2.1⟩
  | cons a more ih =>
    intro c t e h
    rw [backoffRetry_fail_cons]
    by_cases hr : ApiClient.isRetryableError e
    · rw [if_pos hr]
      rcases a with ⟨t2, att⟩
      obtain ⟨e', he'⟩ := h (t2, att) (List.mem_cons_self _ _)
      simp only at he'
      subst he'
      obtain ⟨e'', c'', heq, hpres⟩ :=
        ih (ApiClient.recordFailure c t) t2 e'
          (fun p hp => h p (List.mem_cons_of_mem _ hp))
      exact ⟨e'', c'', heq, hpres.trans (recordFailure_fields c t).2.1⟩
    · rw [if_neg hr]
      exact ⟨e, ApiClient.recordFailure c t, rfl,
        (recordFailure_fields c t).2.1⟩

/-- Helper: the breaker check never touches the fallback registry. -/
theorem isCircuitBreakerOpen_FallbackResponses (c : ApiClient.BlueskyClient)
    (now : Int) :
    (ApiClient.isCircuitBreakerOpen c now).2.FallbackResponses
      = c.FallbackResponses := by
  unfold ApiClient.isCircuitBreakerOpen
  split_ifs <;> rfl

/-- Helper: an open breaker within the reset timeout reports open and leaves
the state unchanged. -/
theorem isCircuitBreakerOpen_still_open (c : ApiClient.BlueskyClient)
    (now : Int) (hopen : c.isCircuitOpen = true)
    (hle : now - c.circuitLastChecked ≤ c.CircuitBreaker.ResetTimeout) :
    ApiClient.isCircuitBreakerOpen c now = (true, c) := by
  unfold ApiClient.isCircuitBreakerOpen
  rw [hopen, if_pos rfl, if_neg (not_lt.mpr hle)]

/-- Claim C4 (confirmed): while the breaker is open (and the reset timeout
has not elapsed) `Get`/`Post` return the registered fallback bytes as an
error-free result — for every attempt oracle, i.e. without dialing — or the
`CircuitOpen` error when no fallback is registered; and when the breaker lets
the call through but every attempt fails, a registered fallback is returned
in place of the final error, indistinguishable from a success. -/
theorem circuit_open_fallback :
    (∀ (c : ApiClient.BlueskyClient) (now : Int) (endpoint : String)
       (fb : List Nat) (first : Int × ApiClient.Attempt)
       (rest : List (Int × ApiClient.Attempt)),
       c.isCircuitOpen = true →
       now - c.circuitLastChecked ≤ c.CircuitBreaker.ResetTimeout →
       c.FallbackResponses endpoint = some fb →
       (ApiClient.executeRequestWithRetries c endpoint now first rest).1
         = .ok fb) ∧
    (∀ (c : ApiClient.BlueskyClient) (now : Int) (endpoint : String)
       (first : Int × ApiClient.Attempt)
       (rest : List (Int × ApiClient.Attempt)),
       c.isCircuitOpen = true →
       now - c.circuitLastChecked ≤ c.CircuitBreaker.ResetTimeout →
       c.FallbackResponses endpoint = none →
       (ApiClient.executeRequestWithRetries c endpoint now first rest).1
         = .error .circuitOpen) ∧
    (∀ (c : ApiClient.BlueskyClient) (now : Int) (endpoint : String)
       (fb : List Nat) (t : Int) (e : ApiClient.GoError)
       (rest : List (Int × ApiClient.Attempt)),
       (ApiClient.isCircuitBreakerOpen c now).1 = false →
       (∀ p ∈ rest, ∃ e', p.2 = ApiClient.Attempt.fail e') →
       c.FallbackResponses endpoint = some fb →
       (ApiClient.executeRequestWithRetries c endpoint now (t, .fail e) rest).1
         = .ok fb) := by
  refine ⟨?_, ?_, ?_⟩
  · intro c now endpoint fb first rest hopen hle hfb
    have hco := isCircuitBreakerOpen_still_open c now hopen hle
    simp [ApiClient.executeRequestWithRetries, hco, hfb]
  · intro c now endpoint first rest hopen hle hfb
    have hco := isCircuitBreakerOpen_still_open c now hopen hle
    simp [ApiClient.executeRequestWithRetries, hco, hfb]
  · intro c now endpoint fb t e rest hnotopen hall hfb
    rcases hco : ApiClient.isCircuitBreakerOpen c now with ⟨b, c₁⟩
    rw [hco] at hnotopen
    simp only at hnotopen
    subst hnotopen
    have hc₁ : c₁.FallbackResponses = c.FallbackResponses := by
      have := isCircuitBreakerOpen_FallbackResponses c now
      rw [hco] at this
      exact this
    obtain ⟨e'', c'', heq, hpres⟩ := backoffRetry_all_fail rest c₁ t e hall
    have hc₁fb : c₁.FallbackResponses endpoint = some fb := by rw [hc₁, hfb]
    have hcfb : c''.FallbackResponses endpoint = some fb := by
      rw [hpres, hc₁fb]
    simp [ApiClient.executeRequestWithRetries, hco, heq, hcfb]

/-- Witness for `circuit_open_fallback`: with the breaker open the timeline
fallback is served without dialing, and with the breaker closed but the only
attempt failing it is served in place of the error. -/
theorem circuit_open_fallback_witness :
    c4Client.isCircuitOpen = true ∧
    (ApiClient.executeRequestWithRetries c4Client "app.bsky.feed.getTimeline"
      10 (11, .fail c1NetTimeoutErr) []).1 = .ok [1, 2, 3] ∧
    (ApiClient.executeRequestWithRetries c4ClosedClient
      "app.bsky.feed.getTimeline" 10 (11, .fail c1NetTimeoutErr) []).1
      = .ok [1, 2, 3] :=
  ⟨rfl,
   circuit_open_fallback.1 c4Client 10 "app.bsky.feed.getTimeline" [1, 2, 3]
     (11, .fail c1NetTimeoutErr) [] rfl (by decide) rfl,
   circuit_open_fallback.2.2 c4ClosedClient 10 "app.bsky.feed.getTimeline"
     [1, 2, 3] 11 c1NetTimeoutErr [] (by decide) (by simp) rfl⟩

/-- Helper: folding the recorder over failures whose count (from a clean
counter) reaches the threshold leaves the breaker open with the last failure
instant recorded, the counter fully accumulated, and configuration and
registry untouched. -/
theorem applyFailures_opens :
    ∀ (ts' : List Int) (tLast : Int) (c : ApiClient.BlueskyClient),
      c.CircuitBreaker.FailureThreshold ≤ c.currentFailures + ts'.length + 1 →
      (ApiClient.applyFailures c (ts' ++ [tLast])).isCircuitOpen = true ∧
      (ApiClient.applyFailures c (ts' ++ [tLast])).circuitLastChecked = tLast ∧
      (ApiClient.applyFailures c (ts' ++ [tLast])).CircuitBreaker
        = c.CircuitBreaker ∧
      (ApiClient.applyFailures c (ts' ++ [tLast])).FallbackResponses
        = c.FallbackResponses := by
  intro ts'
  induction ts' with
  | nil =>
    intro tLast c hth
    have h1 : c.CircuitBreaker.FailureThreshold ≤ c.currentFailures + 1 := by
      simpa using hth
    simp only [List.nil_append, ApiClient.applyFailures, List.foldl_cons,
      List.foldl_nil]
    unfold ApiClient.recordFailure
    rw [if_pos h1]
    exact ⟨rfl, rfl, rfl, rfl⟩
  | cons t0 rest ih =>
    intro tLast c hth
    have hstep : ApiClient.applyFailures c ((t0 :: rest) ++ [tLast])
        = ApiClient.applyFailures (ApiClient.recordFailure c t0)
            (rest ++ [tLast]) := by
      simp [ApiClient.applyFailures]
    have hf := recordFailure_fields c t0
    have hth' : (ApiClient.recordFailure c t0).CircuitBreaker.FailureThreshold
        ≤ (ApiClient.recordFailure c t0).currentFailures + rest.length + 1 := by
      rw [hf.1, hf.2.2]
      simp only [List.length_cons] at hth
      omega
    obtain ⟨h1, h2, h3, h4⟩ := ih tLast (ApiClient.recordFailure c t0) hth'
    rw [hstep]
    exact ⟨h1, h2, h3.trans hf.1, h4.trans hf.2.1⟩

/-- Claim C3 (confirmed): from a clean failure counter, after exactly
`FailureThreshold` recorded failures the breaker is open; any call within the
reset timeout for an endpoint with no registered fallback returns the
`CircuitOpen` error regardless of what the upstream would answer (no dial);
and once strictly more than the reset timeout has elapsed since the breaker
opened, the breaker check lets the next call through half-open with the
consecutive-failure counter reset to 0, so a succeeding attempt's body is
returned. -/
theorem circuit_breaker_threshold (c : ApiClient.BlueskyClient)
    (ts' : List Int) (tLast : Int)
    (hclean : c.currentFailures = 0)
    (hlen : ts'.length + 1 = c.CircuitBreaker.FailureThreshold) :
    (ApiClient.applyFailures c (ts' ++ [tLast])).isCircuitOpen = true ∧
    (∀ (now : Int) (endpoint : String) (first : Int × ApiClient.Attempt)
       (rest : List (Int × ApiClient.Attempt)),
       c.FallbackResponses endpoint = none →
       now - tLast ≤ c.CircuitBreaker.ResetTimeout →
       (ApiClient.executeRequestWithRetries
         (ApiClient.applyFailures c (ts' ++ [tLast])) endpoint now first
         rest).1 = .error .circuitOpen) ∧
    (∀ now : Int, c.CircuitBreaker.ResetTimeout < now - tLast →
       (ApiClient.isCircuitBreakerOpen
         (ApiClient.applyFailures c (ts' ++ [tLast])) now).1 = false ∧
       (ApiClient.isCircuitBreakerOpen
         (ApiClient.applyFailures c (ts' ++ [tLast])) now).2.currentFailures
         = 0 ∧
       (∀ (endpoint : String) (t : Int) (body : List Nat)
          (rest : List (Int × ApiClient.Attempt)),
          (ApiClient.executeRequestWithRetries
            (ApiClient.applyFailures c (ts' ++ [tLast])) endpoint now
            (t, .ok body) rest).1 = .ok body)) := by
  obtain ⟨hopen, hlast, hcb, hfbeq⟩ :=
    applyFailures_opens ts' tLast c (by omega)
  refine ⟨hopen, ?_, ?_⟩
  · intro now endpoint first rest hfbnone hle
    have hco := isCircuitBreakerOpen_still_open
      (ApiClient.applyFailures c (ts' ++ [tLast])) now hopen
      (by rw [hlast, hcb]; exact hle)
    have hfb : (ApiClient.applyFailures c (ts' ++ [tLast])).FallbackResponses
        endpoint = none := by rw [hfbeq]; exact hfbnone
    simp [ApiClient.executeRequestWithRetries, hco, hfb]
  · intro now hgt
    have hco : ApiClient.isCircuitBreakerOpen
        (ApiClient.applyFailures c (ts' ++ [tLast])) now =
        (false, { ApiClient.applyFailures c (ts' ++ [tLast]) with
                  isCircuitOpen := false, currentFailures := 0 }) := by
      unfold ApiClient.isCircuitBreakerOpen
      rw [hopen, if_pos rfl, if_pos (by rw [hlast, hcb]; exact hgt)]
    refine ⟨by rw [hco], by rw [hco], ?_⟩
    intro endpoint t body rest
    simp [ApiClient.executeRequestWithRetries, hco, ApiClient.backoffRetry]

/-- Witness for `circuit_breaker_threshold`: threshold 2, failures at 1 and
2; at instant 10 the breaker rejects with `CircuitOpen`, at instant 100 the
half-open call goes through with the counter reset. -/
theorem circuit_breaker_threshold_witness :
    (ApiClient.applyFailures c3Client [1, 2]).isCircuitOpen = true ∧
    (ApiClient.executeRequestWithRetries (ApiClient.applyFailures c3Client
      [1, 2]) "app.bsky.feed.getTimeline" 10 (11, .fail c1NetTimeoutErr)
      []).1 = .error .circuitOpen ∧
    (ApiClient.isCircuitBreakerOpen (ApiClient.applyFailures c3Client [1, 2])
      100).2.currentFailures = 0 ∧
    (ApiClient.executeRequestWithRetries (ApiClient.applyFailures c3Client
      [1, 2]) "app.bsky.feed.getTimeline" 100 (101, .ok [42]) []).1
      = .ok [42] := by
  have h := circuit_breaker_threshold c3Client [1] 2 rfl (by decide)
  exact ⟨h.1,
    h.2.1 10 "app.bsky.feed.getTimeline" (11, .fail c1NetTimeoutErr) [] rfl
      (by decide),
    (h.2.2 100 (by decide)).2.1,
    (h.2.2 100 (by decide)).2.2 "app.bsky.feed.getTimeline" 101 [42] []⟩

/-- Helper: the periodic sweep leaves the window length unchanged. -/
theorem cleanupDue_windowSize (rl : Handlers.RateLimiter) (now : Int) :
    (Handlers.cleanupDue rl now).windowSize = rl.windowSize := by
  unfold Handlers.cleanupDue Handlers.cleanup
  split <;> rfl

/-- Helper: the periodic sweep leaves the admission cap unchanged. -/
theorem cleanupDue_maxRequests (rl : Handlers.RateLimiter) (now : Int) :
    (Handlers.cleanupDue rl now).maxRequests = rl.maxRequests := by
  unfold Handlers.cleanupDue Handlers.cleanup
  split <;> rfl

/-- Helper: `Allow` leaves the window length unchanged. -/
theorem Allow_windowSize (rl : Handlers.RateLimiter) (ip : String) (now : Int) :
    (Handlers.Allow rl ip now).2.windowSize = rl.windowSize := by
  unfold Handlers.Allow Handlers.allowCore
  split
  · exact cleanupDue_windowSize rl now
  · exact cleanupDue_windowSize rl now

/-- Helper: `Allow` leaves the admission cap unchanged. -/
theorem Allow_maxRequests (rl : Handlers.RateLimiter) (ip : String) (now : Int) :
    (Handlers.Allow rl ip now).2.maxRequests = rl.maxRequests := by
  unfold Handlers.Allow Handlers.allowCore
  split
  · exact cleanupDue_maxRequests rl now
  · exact cleanupDue_maxRequests rl now

/-- Helper: the periodic sweep only removes instants at or before
`now - windowSize`, so counts above any no-older cutoff are unchanged. -/
theorem cleanupDue_countP (rl : Handlers.RateLimiter) (now : Int) (k : String)
    (c : Int) (h : now - rl.windowSize ≤ c) :
    ((Handlers.cleanupDue rl now).requests k).countP (fun s => decide (c < s))
      = (rl.requests k).countP (fun s => decide (c < s)) := by
  unfold Handlers.cleanupDue Handlers.cleanup
  split
  · show ((rl.requests k).filter
        (fun s => decide (now - rl.windowSize < s))).countP
        (fun s => decide (c < s)) = _
    rw [List.countP_filter]
    refine List.countP_congr ?_
    intro a _
    simp only [Bool.and_eq_true, decide_eq_true_eq]
    constructor
    · rintro ⟨ha, _⟩
      exact ha
    · intro ha
      exact ⟨ha, lt_of_le_of_lt h ha⟩
  · rfl


/-- Helper: storing a list for one key leaves the window length unchanged. -/
theorem updReq_windowSize (rl : Handlers.RateLimiter) (ip : String)
    (v : List Int) : (Handlers.updReq rl ip v).windowSize = rl.windowSize := rfl

/-- Helper: storing a list for one key leaves the admission cap unchanged. -/
theorem updReq_maxRequests (rl : Handlers.RateLimiter) (ip : String)
    (v : List Int) : (Handlers.updReq rl ip v).maxRequests = rl.maxRequests :=
  rfl

/-- Helper: the stored key reads back the stored list. -/
theorem updReq_self (rl : Handlers.RateLimiter) (ip : String) (v : List Int) :
    (Handlers.updReq rl ip v).requests ip = v := by
  simp [Handlers.updReq]

/-- Helper: other keys are untouched by the store. -/
theorem updReq_other (rl : Handlers.RateLimiter) (ip : String) (v : List Int)
    (k : String) (h : ¬ k = ip) :
    (Handlers.updReq rl ip v).requests k = rl.requests k := by
  simp [Handlers.updReq, h]

/-- Helper: one admission decision preserves the invariant.  `stc` is the
(already swept) state `allowCore` runs on; on rejection nothing changes, on
admission the key's truncated list plus `now` keeps every recent admission
counted, and the window bound survives because the admission test saw every
recent admission of that key. -/
theorem limInv_core_step (stc : Handlers.RateLimiter)
    (adm : List (String × Int)) (tmax t : Int) (ip : String)
    (hmono : tmax ≤ t)
    (h1 : ∀ p ∈ adm, p.2 ≤ tmax)
    (hCL : ∀ (k : String) (c : Int), t - stc.windowSize ≤ c →
      adm.countP (afterCut k c)
        ≤ (stc.requests k).countP (fun s => decide (c < s)))
    (h3 : ∀ (T : Int) (k : String),
      adm.countP (inWindow stc.windowSize k T) ≤ stc.maxRequests) :
    LimInv (Handlers.allowCore stc ip t).2
      (adm ++ cond (Handlers.allowCore stc ip t).1 [(ip, t)] []) t := by
  unfold Handlers.allowCore
  by_cases hcase : stc.maxRequests ≤
      ((stc.requests ip).filter
        (fun s => decide (t - stc.windowSize < s))).length
  · rw [if_pos hcase]
    show LimInv stc (adm ++ []) t
    rw [List.append_nil]
    exact ⟨fun p hp => le_trans (h1 p hp) hmono, fun k c hc => hCL k c hc, h3⟩
  · rw [if_neg hcase]
    show LimInv (Handlers.updReq stc ip
      (((stc.requests ip).filter
        (fun s => decide (t - stc.windowSize < s))) ++ [t]))
      (adm ++ [(ip, t)]) t
    have hlen : ((stc.requests ip).filter
        (fun s => decide (t - stc.windowSize < s))).length
        < stc.maxRequests := not_le.mp hcase
    refine ⟨?_, ?_, ?_⟩
    · intro p hp
      rcases List.mem_append.mp hp with hM | hS
      · exact le_trans (h1 p hM) hmono
      · rw [List.mem_singleton.mp hS]
    · intro k c hc
      simp only [updReq_windowSize] at hc
      rw [List.countP_append]
      by_cases hk : k = ip
      · subst hk
        rw [updReq_self, List.countP_append]
        have hV : ((stc.requests k).filter
            (fun s => decide (t - stc.windowSize < s))).countP
            (fun s => decide (c < s))
            = (stc.requests k).countP (fun s => decide (c < s)) := by
          rw [List.countP_filter]
          refine List.countP_congr ?_
          intro a _
          simp only [Bool.and_eq_true, decide_eq_true_eq]
          constructor
          · rintro ⟨ha, _⟩
            exact ha
          · intro ha
            exact ⟨ha, lt_of_le_of_lt hc ha⟩
        rw [hV]
        have hsing : [((k : String), t)].countP (afterCut k c)
            = [t].countP (fun s => decide (c < s)) := by
          simp [afterCut, List.countP_cons]
        rw [hsing]
        exact Nat.add_le_add_right (hCL k c hc) _
      · rw [updReq_other stc ip _ k hk]
        have hsing : [(ip, t)].countP (afterCut k c) = 0 := by
          have hne : ¬ (ip = k) := fun h => hk h.symm
          simp [afterCut, List.countP_cons, hne]
        rw [hsing, Nat.add_zero]
        exact hCL k c hc
    · intro T k
      simp only [updReq_windowSize, updReq_maxRequests]
      rw [List.countP_append]
      by_cases hw : inWindow stc.windowSize k T (ip, t) = true
      · have hfacts : (ip = k ∧ T < t) ∧ t ≤ T + stc.windowSize := by
          simpa [inWindow, Bool.and_eq_true, decide_eq_true_eq] using hw
        obtain ⟨⟨hip, hT⟩, hTW⟩ := hfacts
        subst hip
        have hle1 : adm.countP (inWindow stc.windowSize ip T)
            ≤ adm.countP (afterCut ip (t - stc.windowSize)) := by
          refine List.countP_mono_left ?_
          intro p hp hpw
          have hfp : (p.1 = ip ∧ T < p.2) ∧ p.2 ≤ T + stc.windowSize := by
            simpa [inWindow, Bool.and_eq_true, decide_eq_true_eq] using hpw
          have hcut : t - stc.windowSize ≤ T := by omega
          simp only [afterCut, Bool.and_eq_true, decide_eq_true_eq]
          exact ⟨hfp.1.1, lt_of_le_of_lt hcut hfp.1.2⟩
        have hle2 : adm.countP (afterCut ip (t - stc.windowSize))
            ≤ (stc.requests ip).countP
                (fun s => decide (t - stc.windowSize < s)) :=
          hCL ip (t - stc.windowSize) (le_refl _)
        have hVlen : (stc.requests ip).countP
            (fun s => decide (t - stc.windowSize < s))
            = ((stc.requests ip).filter
                (fun s => decide (t - stc.windowSize < s))).length :=
          List.countP_eq_length_filter ..
        have hsing : [((ip : String), t)].countP
            (inWindow stc.windowSize ip T) ≤ 1 := by
          simpa using List.countP_le_length
            (p := inWindow stc.windowSize ip T) (l := [((ip : String), t)])
        omega
      · have hsing : [(ip, t)].countP (inWindow stc.windowSize k T) = 0 := by
          simp only [Bool.not_eq_true] at hw
          simp [List.countP_cons, hw]
        rw [hsing, Nat.add_zero]
        exact h3 T k

/-- Helper: `Allow` (sweep then decision) preserves the invariant, advancing
the time bound to the call instant. -/
theorem limInv_step (st : Handlers.RateLimiter) (adm : List (String × Int))
    (tmax t : Int) (ip : String)
    (hmono : tmax ≤ t) (hinv : LimInv st adm tmax) :
    LimInv (Handlers.Allow st ip t).2
      (adm ++ cond (Handlers.Allow st ip t).1 [(ip, t)] []) t := by
  obtain ⟨h1, h2, h3⟩ := hinv
  have hW := cleanupDue_windowSize st t
  have hN := cleanupDue_maxRequests st t
  have hCL : ∀ (k : String) (c : Int),
      t - (Handlers.cleanupDue st t).windowSize ≤ c →
      adm.countP (afterCut k c)
        ≤ ((Handlers.cleanupDue st t).requests k).countP
          (fun s => decide (c < s)) := by
    intro k c hc
    rw [hW] at hc
    have hc' : tmax - st.windowSize ≤ c := by omega
    rw [cleanupDue_countP st t k c hc]
    exact h2 k c hc'
  have h3' : ∀ (T : Int) (k : String),
      adm.countP (inWindow (Handlers.cleanupDue st t).windowSize k T)
        ≤ (Handlers.cleanupDue st t).maxRequests := by
    intro T k
    rw [hW, hN]
    exact h3 T k
  exact limInv_core_step (Handlers.cleanupDue st t) adm tmax t ip hmono h1
    hCL h3'

/-- Helper: one-step unfolding of `runLimiter`. -/
theorem runLimiter_cons (st : Handlers.RateLimiter) (ip : String) (t : Int)
    (rest : List (String × Int)) :
    Handlers.runLimiter st ((ip, t) :: rest)
      = ((Handlers.runLimiter (Handlers.Allow st ip t).2 rest).1,
         (cond (Handlers.Allow st ip t).1 [(ip, t)] [])
           ++ (Handlers.runLimiter (Handlers.Allow st ip t).2 rest).2) := rfl

/-- Helper: a run of calls leaves the window length unchanged. -/
theorem runLimiter_windowSize :
    ∀ (trace : List (String × Int)) (st : Handlers.RateLimiter),
      (Handlers.runLimiter st trace).1.windowSize = st.windowSize := by
  intro trace
  induction trace with
  | nil => intro st; rfl
  | cons p rest ih =>
    intro st
    rcases p with ⟨ip, t⟩
    rw [runLimiter_cons]
    show (Handlers.runLimiter (Handlers.Allow st ip t).2 rest).1.windowSize
      = st.windowSize
    rw [ih (Handlers.Allow st ip t).2, Allow_windowSize]

/-- Helper: a run of calls leaves the admission cap unchanged. -/
theorem runLimiter_maxRequests :
    ∀ (trace : List (String × Int)) (st : Handlers.RateLimiter),
      (Handlers.runLimiter st trace).1.maxRequests = st.maxRequests := by
  intro trace
  induction trace with
  | nil => intro st; rfl
  | cons p rest ih =>
    intro st
    rcases p with ⟨ip, t⟩
    rw [runLimiter_cons]
    show (Handlers.runLimiter (Handlers.Allow st ip t).2 rest).1.maxRequests
      = st.maxRequests
    rw [ih (Handlers.Allow st ip t).2, Allow_maxRequests]

/-- Helper: running a time-ordered trace preserves the invariant, collecting
the admitted calls. -/
theorem limInv_run :
    ∀ (trace : List (String × Int)) (st : Handlers.RateLimiter)
      (adm : List (String × Int)) (tmax : Int),
      List.Pairwise (fun a b => a.2 ≤ b.2) trace →
      (∀ p ∈ trace, tmax ≤ p.2) →
      LimInv st adm tmax →
      ∃ tf, LimInv (Handlers.runLimiter st trace).1
        (adm ++ (Handlers.runLimiter st trace).2) tf := by
  intro trace
  induction trace with
  | nil =>
    intro st adm tmax _ _ hinv
    exact ⟨tmax, by simpa [Handlers.runLimiter] using hinv⟩
  | cons p rest ih =>
    intro st adm tmax hpw hlb hinv
    rcases p with ⟨ip, t⟩
    have hmono : tmax ≤ t := hlb (ip, t) (List.mem_cons_self _ _)
    have hstep := limInv_step st adm tmax t ip hmono hinv
    have hpw' := (List.pairwise_cons.mp hpw).2
    have hrel := (List.pairwise_cons.mp hpw).1
    obtain ⟨tf, hf⟩ := ih (Handlers.Allow st ip t).2
      (adm ++ cond (Handlers.Allow st ip t).1 [(ip, t)] []) t hpw'
      (fun q hq => hrel q hq) hstep
    refine ⟨tf, ?_⟩
    rw [runLimiter_cons]
    show LimInv (Handlers.runLimiter (Handlers.Allow st ip t).2 rest).1
      (adm ++ (cond (Handlers.Allow st ip t).1 [(ip, t)] []
        ++ (Handlers.runLimiter (Handlers.Allow st ip t).2 rest).2)) tf
    rw [← List.append_assoc]
    exact hf

/-- Claim C6 (confirmed): for every key and every half-open rolling window
(T, T + windowSize], the number of `Allow` calls of a time-ordered trace that
were admitted for that key at an instant inside the window is at most
`maxRequests` — from any starting state, since pre-existing entries only make
rejection more likely. -/
theorem rate_limiter_window_bound (rl : Handlers.RateLimiter)
    (trace : List (String × Int))
    (hsort : List.Pairwise (fun a b => a.2 ≤ b.2) trace)
    (T : Int) (k : String) :
    (Handlers.runLimiter rl trace).2.countP (inWindow rl.windowSize k T)
      ≤ rl.maxRequests := by
  cases trace with
  | nil => simp [Handlers.runLimiter]
  | cons p rest =>
    have hbase : LimInv rl [] p.2 :=
      ⟨fun q hq => absurd hq (List.not_mem_nil q),
       fun _ _ _ => by simp,
       fun _ _ => by simp⟩
    have hlb : ∀ q ∈ p :: rest, p.2 ≤ q.2 := by
      intro q hq
      rcases List.mem_cons.mp hq with rfl | hmem
      · exact le_refl _
      · exact (List.pairwise_cons.mp hsort).1 q hmem
    obtain ⟨tf, hf⟩ := limInv_run (p :: rest) rl [] p.2 hsort hlb hbase
    have h3f := hf.2.2 T k
    rw [runLimiter_windowSize (p :: rest) rl,
      runLimiter_maxRequests (p :: rest) rl] at h3f
    simpa using h3f

/-- Witness for `rate_limiter_window_bound`: two ordered calls from one
client against the package-level limiter stay within the 60-per-minute
bound. -/
theorem rate_limiter_window_bound_witness :
    List.Pairwise (fun a b : String × Int => a.2 ≤ b.2)
      [("203.0.113.7", 1), ("203.0.113.7", 2)] ∧
    (Handlers.runLimiter (Handlers.rateLimiterInit 0)
      [("203.0.113.7", 1), ("203.0.113.7", 2)]).2.countP
      (inWindow (Handlers.rateLimiterInit 0).windowSize "203.0.113.7" 0)
      ≤ (Handlers.rateLimiterInit 0).maxRequests :=
  ⟨by decide,
   rate_limiter_window_bound (Handlers.rateLimiterInit 0) _ (by decide) 0
     "203.0.113.7"⟩
